import Mathlib

/-!
Shallow embedding of `src/homework.py` (a poll-detect-notify Telegram bot)
and proofs of the specification claims about it.

The embedding models the decoded JSON payloads the program manipulates as a
`Value` type (Python `None`, `bool`, `int`, `str`, `list`, `dict` with string
keys; floats are outside the model), Python exceptions as a `PyError` type,
and the observable behaviour of a poll cycle (log calls, Telegram send
attempts, the sleep) as a trace of `LogEvent`s.  Effects of the external
world — the HTTP transport, the JSON decoder, the wall clock, the Telegram
delivery outcome — are inputs supplied through environment structures.
-/

set_option autoImplicit false

namespace Homework

/-- A decoded Python/JSON value.  `null` models Python `None`. -/
inductive Value where
  | null
  | bool (b : Bool)
  | int (n : Int)
  | str (s : String)
  | list (xs : List Value)
  | dict (xs : List (String × Value))

/-- Python exceptions raised by the program, with their `str(e)` payload.
`unboundLocalError` models Python's `UnboundLocalError` (a `NameError`)
raised when a local variable is read before assignment. -/
inductive PyError where
  | apiRequestError (msg : String)
  | apiResponseError (msg : String)
  | homeworkStatusError (msg : String)
  | tokenError (msg : String)
  | keyError (msg : String)
  | typeError (msg : String)
  | valueError (msg : String)
  | unboundLocalError (msg : String)
  deriving DecidableEq, Repr

/-- Python `str(e)` for a caught exception.  For `KeyError`, `str` of the
exception is the `repr` of its argument, hence the added quotes. -/
def PyError.toStr : PyError → String
  | .apiRequestError m => m
  | .apiResponseError m => m
  | .homeworkStatusError m => m
  | .tokenError m => m
  | .keyError m => "\x27" ++ m ++ "\x27"
  | .typeError m => m
  | .valueError m => m
  | .unboundLocalError m => m

/-- First-match lookup in an association list (Python `dict` access order:
keys are unique in a real dict, our model keeps first-match semantics). -/
def lookupKV {α : Type} : List (String × α) → String → Option α
  | [], _ => Option.none
  | (k, v) :: rest, key => if k = key then some v else lookupKV rest key

/-- Python `d[k] = v`: replace the value of an existing key in place,
append the pair otherwise. -/
def updateKV {α : Type} : List (String × α) → String → α → List (String × α)
  | [], key, v => [(key, v)]
  | (k, w) :: rest, key, v =>
      if k = key then (k, v) :: rest else (k, w) :: updateKV rest key v

/-- Python truthiness (`if x:`). -/
def Value.truthy : Value → Bool
  | .null => false
  | .bool b => b
  | .int n => n ≠ 0
  | .str s => s ≠ ""
  | .list xs => ¬ xs.isEmpty
  | .dict xs => ¬ xs.isEmpty

/-- `isinstance(x, dict)`. -/
def Value.isDict : Value → Bool
  | .dict _ => true
  | _ => false

/-- `isinstance(x, list)`. -/
def Value.isList : Value → Bool
  | .list _ => true
  | _ => false

/-- Key lookup on a dict value; `Option.none` for non-dicts and absent keys. -/
def Value.lookup? : Value → String → Option Value
  | .dict xs, key => lookupKV xs key
  | _, _ => Option.none

/-- Python's short type name, as in `type(x)` output. -/
def pyTypeShort : Value → String
  | .null => "NoneType"
  | .bool _ => "bool"
  | .int _ => "int"
  | .str _ => "str"
  | .list _ => "list"
  | .dict _ => "dict"

/-- `f-string` rendering of `type(x)`, e.g. `<class 'dict'>`. -/
def pyTypeName (v : Value) : String :=
  "<class \x27" ++ pyTypeShort v ++ "\x27>"

/-- `needle` is a leading segment of `hay` (over character lists). -/
def hasPre : List Char → List Char → Bool
  | [], _ => true
  | _ :: _, [] => false
  | c :: cs, d :: ds => c == d && hasPre cs ds

/-- `needle` occurs as a contiguous run inside `hay`. -/
def subList : List Char → List Char → Bool
  | n, [] => n.isEmpty
  | n, d :: ds => hasPre n (d :: ds) || subList n ds

/-- Python `needle in hay` for strings (substring test). -/
def strContains (hay needle : String) : Bool :=
  subList needle.data hay.data

mutual
/-- Python `repr(v)` (which `str` delegates to for containers). -/
def pyRepr : Value → String
  | .null => "None"
  | .bool true => "True"
  | .bool false => "False"
  | .int n => toString n
  | .str s => "\x27" ++ s ++ "\x27"
  | .list xs => "[" ++ pyReprList xs ++ "]"
  | .dict xs => "\x7b" ++ pyReprDict xs ++ "\x7d"

/-- Comma-joined reprs of list elements. -/
def pyReprList : List Value → String
  | [] => ""
  | [v] => pyRepr v
  | v :: rest => pyRepr v ++ ", " ++ pyReprList rest

/-- Comma-joined reprs of dict items. -/
def pyReprDict : List (String × Value) → String
  | [] => ""
  | [(k, v)] => "\x27" ++ k ++ "\x27: " ++ pyRepr v
  | (k, v) :: rest => "\x27" ++ k ++ "\x27: " ++ pyRepr v ++ ", " ++ pyReprDict rest
end

/-- Python `str(v)`: identity on strings, `repr`-like elsewhere. -/
def pyStr : Value → String
  | .str s => s
  | v => pyRepr v

/-- Python `key in container` for a string key: dict keys, list membership
(string elements only can compare equal to a string), substring test on
strings; `int`/`bool`/`None` containers raise `TypeError`. -/
def pyContains (container : Value) (key : String) : Except PyError Bool :=
  match container with
  | .dict xs => .ok (lookupKV xs key).isSome
  | .list xs => .ok (xs.any fun v => match v with | .str s => s == key | _ => false)
  | .str s => .ok (strContains s key)
  | v => .error (.typeError ("argument of type \x27" ++ pyTypeShort v ++ "\x27 is not iterable"))

/-- Python `container[key]` for a string key. -/
def pyIndex (container : Value) (key : String) : Except PyError Value :=
  match container with
  | .dict xs =>
      match lookupKV xs key with
      | some v => .ok v
      | Option.none => .error (.keyError key)
  | .str _ => .error (.typeError "string indices must be integers")
  | .list _ => .error (.typeError "list indices must be integers or slices, not str")
  | v => .error (.typeError ("\x27" ++ pyTypeShort v ++ "\x27 object is not subscriptable"))

/-- Python `container[i]` for a nonnegative integer index (only the list
case is ever reached by the program). -/
def pyIndexNat (container : Value) (i : Nat) : Except PyError Value :=
  match container with
  | .list xs =>
      match xs.get? i with
      | some v => .ok v
      | Option.none => .error (.keyError "list index out of range")
  | v => .error (.typeError ("\x27" ++ pyTypeShort v ++ "\x27 object is not subscriptable"))

/-- Python `dict.get(key, default)` (only called on dicts by the program;
non-dicts fall back to the default in this dead branch). -/
def pyGetD (container : Value) (key : String) (default : Value) : Value :=
  match container with
  | .dict xs => (lookupKV xs key).getD default
  | _ => default

/-- Python `v != n` for an integer literal `n` (used for
`data['code'] != HTTPStatus.OK.value`): numeric equality identifies
`bool` with `0`/`1`; values of other types are never equal to an int. -/
def pyEqInt (v : Value) (n : Int) : Bool :=
  match v with
  | .int m => m == n
  | .bool b => (if b then (1 : Int) else 0) == n
  | _ => false

/-- Python `int(v)`: ints pass through, bools become `0`/`1`, strings are
parsed (raising `ValueError` when unparsable), other types raise
`TypeError`. -/
def pyInt (v : Value) : Except PyError Int :=
  match v with
  | .int n => .ok n
  | .bool b => .ok (if b then 1 else 0)
  | .str s =>
      match s.trim.toInt? with
      | some n => .ok n
      | Option.none =>
          .error (.valueError ("invalid literal for int() with base 10: \x27" ++ s ++ "\x27"))
  | w => .error (.typeError ("int() argument must be a string or a number, not \x27" ++ pyTypeShort w ++ "\x27"))

/-! ## Module constants (`src/homework.py`, top of file) -/

/-- `RETRY_PERIOD = 600` -/
def RETRY_PERIOD : Nat := 600

/-- `DUPLICATE_DELAY = 3600` -/
def DUPLICATE_DELAY : Int := 3600

/-- `ENDPOINT = '...'` -/
def ENDPOINT : String := "https://practicum.yandex.ru/api/user_api/homework_statuses/"

/-- `STATUS_CHANGE_MSG.format(name, verdict)`: the fixed status-change
template with its two slots filled. -/
def STATUS_CHANGE_MSG (name verdict : String) : String :=
  "Изменился статус проверки работы \x22" ++ name ++ "\x22. " ++ verdict

/-- `HOMEWORK_VERDICTS` (insertion order preserved). -/
def HOMEWORK_VERDICTS : List (String × String) :=
  [("approved", "Работа проверена: ревьюеру всё понравилось. Ура!"),
   ("reviewing", "Работа взята на проверку ревьюером."),
   ("rejected", "Работа проверена: у ревьюера есть замечания.")]

/-- Lookup in the verdict table. -/
def verdictOf? (s : String) : Option String :=
  lookupKV HOMEWORK_VERDICTS s

/-- Python `status not in HOMEWORK_VERDICTS` needs `status` hashable:
strings are compared against the keys, other hashable values never equal a
string key, unhashable containers raise `TypeError`. -/
def verdictMember (status : Value) : Except PyError Bool :=
  match status with
  | .str s => .ok (verdictOf? s).isSome
  | .list _ => .error (.typeError "unhashable type: \x27list\x27")
  | .dict _ => .error (.typeError "unhashable type: \x27dict\x27")
  | _ => .ok false

/-! ## Process configuration and environments -/

/-- The three environment variables read at module load
(`os.getenv` yields `None` when the variable is unset). -/
structure Config where
  practicum : Option String
  telegram : Option String
  chatId : Option String

/-- One cycle's view of the external world: the transport outcome seen by
`requests.get`, the decoded body, the wall clock, and the Telegram delivery
outcome. -/
structure ApiEnv where
  /-- `some e` when `requests.get` raises a
  `requests.exceptions.RequestException` with text `e`. -/
  requestExc : Option String
  /-- `response.status_code` (meaningful only when the request returned). -/
  statusCode : Nat
  /-- `response.json()`: a decode-error message or the decoded value. -/
  jsonResult : Except String Value
  /-- `response.text` (used in the JSON-decode error message). -/
  text : String

structure CycleEnv where
  api : ApiEnv
  /-- `time.time()` during this cycle's error handling (the two calls in
  the `except` block are modelled as reading the same clock value). -/
  now : Int
  /-- Whether `bot.send_message` succeeds this cycle. -/
  deliverOk : Bool
  /-- `str(e)` of the `apihelper.ApiException` when delivery fails. -/
  deliverErr : String

/-- The loop's mutable state: the poll cursor `timestamp` and the module
global `sent_errors` (error text ↦ last-sent clock value). -/
structure BotState where
  timestamp : Int
  sent_errors : List (String × Int)

/-- Observable actions of a cycle, in order. -/
inductive LogEvent where
  | logDebug (msg : String)
  | logError (msg : String)
  | logCritical (msg : String)
  | sendAttempt (msg : String)
  | sleep (seconds : Nat)
  deriving DecidableEq, Repr

/-! ## `check_tokens` (lines 79–93) -/

/-- `check_tokens`: collects the names of unset variables (the check is
`value is None`), and on any missing one logs critically and raises
`TokenError`.  Returns the raised error (if any) together with the log
events. -/
def check_tokens (cfg : Config) : Except PyError Unit × List LogEvent :=
  let missing : List String :=
    (if cfg.practicum.isNone then ["PRACTICUM_TOKEN"] else []) ++
    (if cfg.telegram.isNone then ["TELEGRAM_TOKEN"] else []) ++
    (if cfg.chatId.isNone then ["TELEGRAM_CHAT_ID"] else [])
  if missing.isEmpty then (.ok (), [])
  else
    let message :=
      "Отсутствуют необходимые переменные окружения: " ++ String.intercalate ", " missing
    (.error (.tokenError message), [.logCritical message])

/-! ## `get_api_answer` (lines 96–137) -/

/-- `str(HEADERS)` as interpolated into the error messages
(`HEADERS = {'Authorization': f'OAuth {PRACTICUM_TOKEN}'}`). -/
def headersRepr (cfg : Config) : String :=
  "\x7b\x27Authorization\x27: \x27OAuth " ++ (cfg.practicum.getD "None") ++ "\x27\x7d"

/-- `str(payload)` for `payload = {'from_date': timestamp}`. -/
def paramsRepr (ts : Int) : String :=
  "\x7b\x27from_date\x27: " ++ toString ts ++ "\x7d"

/-- The `APIRequestError` message for a non-200 HTTP status (note the
source's missing newline between the status code and the endpoint). -/
def httpErrorMsg (cfg : Config) (statusCode : Nat) (ts : Int) : String :=
  "Ошибка запроса к API\nHTTP Status Code: " ++ toString statusCode ++
  "Конечная точка: " ++ ENDPOINT ++ "\nЗаголовки: " ++ headersRepr cfg ++
  "\nПараметры: " ++ paramsRepr ts

/-- `str(e)` of the `UnboundLocalError` raised inside the
`except RequestException` handler: when `requests.get` itself raised, the
local `response` was never assigned, so the handler's
`getattr(response, ...)` blows up before any logging happens. -/
def unboundResponseMsg : String :=
  "cannot access local variable \x27response\x27 where it is not associated with a value"

/-- `get_api_answer` result: the returned payload or the raised exception.

Control flow mirrors the source: a transport exception reaches the handler
whose first statement reads the unassigned local `response` (see
`unboundResponseMsg`); a non-200 status raises `APIRequestError`; a JSON
decode failure raises `APIRequestError`; a decoded body with a `code` key
different from `200`, or with an `error` key, raises `APIRequestError`
(the `in`/`[]` operations themselves may raise `TypeError` on non-dict
bodies, exactly as in Python). -/
def get_api_answer (cfg : Config) (api : ApiEnv) (ts : Int) : Except PyError Value :=
  match api.requestExc with
  | some _ => .error (.unboundLocalError unboundResponseMsg)
  | Option.none =>
    if api.statusCode ≠ 200 then
      .error (.apiRequestError (httpErrorMsg cfg api.statusCode ts))
    else
      match api.jsonResult with
      | .error _ => .error (.apiRequestError ("Ошибка декодирования JSON ответа: " ++ api.text))
      | .ok data =>
        -- `if 'code' in data and data['code'] != HTTPStatus.OK.value: raise ...`
        -- then `if 'error' in data: raise ...`; each Python operation may
        -- itself raise (`.error e` arms), exactly as in the source.
        match pyContains data "code" with
        | .error e => .error e
        | .ok hasCode =>
          match ((if hasCode then
                   match pyIndex data "code" with
                   | .error e => .error e
                   | .ok codeVal =>
                     if ¬ pyEqInt codeVal 200 then
                       .error (.apiRequestError
                         ("API error: " ++ pyStr (pyGetD data "error" (.str "Unknown error")) ++
                          "код: " ++ pyStr codeVal))
                     else .ok ()
                 else .ok ()) : Except PyError Unit) with
          | .error e => .error e
          | .ok _ =>
            match pyContains data "error" with
            | .error e => .error e
            | .ok hasErr =>
              if hasErr then
                match pyIndex data "error" with
                | .error e => .error e
                | .ok errVal => .error (.apiRequestError ("API error: " ++ pyStr errVal))
              else .ok data

/-- The log calls `get_api_answer` performs: `logging.exception` before the
non-200 raise and before the JSON-decode raise; nothing on the transport
path (the handler crashes before its `logging.exception`) and nothing on
the embedded `code`/`error` path. -/
def get_api_logs (api : ApiEnv) : List LogEvent :=
  match api.requestExc with
  | some _ => []
  | Option.none =>
    if api.statusCode ≠ 200 then [.logError "Ошибка запроса к API"]
    else
      match api.jsonResult with
      | .error _ => [.logError ("Ошибка декодирования JSON ответа: " ++ api.text)]
      | .ok _ => []

/-! ## `check_response` (lines 140–161) -/

/-- `check_response`: rejects falsy payloads (`APIResponseError`),
non-dict payloads (`TypeError`), dicts without a `homeworks` key
(`APIResponseError`) and dicts whose `homeworks` is not a list
(`TypeError`). -/
def check_response (response : Value) : Except PyError Unit :=
  if ¬ response.truthy then
    .error (.apiResponseError "Ответ API пуст или  None.")
  else if ¬ response.isDict then
    .error (.typeError
      ("Ответ API не является словарем." ++ "Получен объект типа: " ++ pyTypeName response ++
       ".\nЗначение ответа: " ++ pyStr response))
  else
    match response.lookup? "homeworks" with
    | Option.none => .error (.apiResponseError "Ответ API не содержит ключ \x22homeworks\x22.")
    | some hw =>
        if ¬ hw.isList then
          .error (.typeError
            ("Ответ API по ключу \x22homeworks\x22 не является списком." ++
             "Получен объект типа: " ++ pyTypeName hw ++ ".\nЗначение ответа: " ++ pyStr hw))
        else .ok ()

/-! ## `parse_status` (lines 164–177) -/

/-- `str(e)` of the `UnboundLocalError` at `STATUS_CHANGE_MSG.format(name, …)`
when the record has no `homework_name` key: the `if 'homework_name' in
homework:` guard has no else-branch, so `name` stays unassigned. -/
def nameUnboundMsg : String :=
  "cannot access local variable \x27name\x27 where it is not associated with a value"

/-- `parse_status`: raises `HomeworkStatusError` when the record has no
`status` key, `KeyError` when the status is not a verdict key, renders the
fixed template when `homework_name` is present, and otherwise trips over
the unassigned local `name` (`UnboundLocalError`).  Each `.error e` arm
propagates an exception raised by the corresponding Python operation. -/
def parse_status (homework : Value) : Except PyError String :=
  match pyContains homework "status" with
  | .error e => .error e
  | .ok hasStatus =>
    if ¬ hasStatus then
      .error (.homeworkStatusError "Ключ \x22status\x22 отсутствует в данных homework.")
    else
      match pyIndex homework "status" with
      | .error e => .error e
      | .ok status =>
        match verdictMember status with
        | .error e => .error e
        | .ok inVerdicts =>
          if ¬ inVerdicts then
            .error (.keyError
              ("Unknown or missing status: " ++ pyStr (pyGetD homework "status" (.str "N/A"))))
          else
            -- `verdict = HOMEWORK_VERDICTS[status]`; the default is dead:
            -- `inVerdicts` guarantees `status` is a string key of the table.
            let verdict :=
              (match status with | .str s => verdictOf? s | _ => Option.none).getD ""
            match pyContains homework "homework_name" with
            | .error e => .error e
            | .ok hasName =>
              if hasName then
                match pyIndex homework "homework_name" with
                | .error e => .error e
                | .ok name => .ok (STATUS_CHANGE_MSG (pyStr name) verdict)
              else
                .error (.unboundLocalError nameUnboundMsg)

/-! ## `send_message` (lines 180–187) -/

/-- `send_message`: attempts the Telegram send; on success logs the message
at debug level, on an `ApiException` logs at error level.  Never raises. -/
def send_message (env : CycleEnv) (message : String) : List LogEvent :=
  if env.deliverOk then
    [.sendAttempt message, .logDebug ("Сообщение отправлено в Telegram: " ++ message)]
  else
    [.sendAttempt message,
     .logError ("Ошибка отправки сообщения в Telegram " ++ message ++ ": " ++ env.deliverErr)]

/-! ## `main` (lines 190–218) -/

/-- The dedup gate of the `except` block (line 212):
`error_message not in sent_errors or time.time() - sent_errors[error_message] > DUPLICATE_DELAY`. -/
def shouldNotify (sent : List (String × Int)) (msg : String) (now : Int) : Bool :=
  match lookupKV sent msg with
  | Option.none => true
  | some last => now - last > DUPLICATE_DELAY

/-- `if 'current_date' in response: timestamp = int(response['current_date']) + 1`
(lines 200–201): the new cursor value, or the exception `int()` raises. -/
def cursorStep (response : Value) (ts : Int) : Except PyError Int :=
  match response.lookup? "current_date" with
  | some v => (pyInt v).map (· + 1)
  | Option.none => .ok ts

/-- Outcome of the `try` body of one cycle: the cursor after the cycle, the
exception that escaped the body (if any) and the log/send events the body
emitted. -/
structure CycleOut where
  ts : Int
  err : Option PyError
  evs : List LogEvent

/-- The `try` body of one loop iteration (lines 198–208), with the
exception — if one is raised — returned instead of propagated.  Branches
marked dead are unreachable after `check_response` succeeded but are kept
total. -/
def cycleBody (cfg : Config) (env : CycleEnv) (ts : Int) : CycleOut :=
  match get_api_answer cfg env.api ts with
  | .error e => ⟨ts, some e, get_api_logs env.api⟩
  | .ok response =>
    match check_response response with
    | .error e => ⟨ts, some e, get_api_logs env.api⟩
    | .ok _ =>
      match cursorStep response ts with
      | .error e => ⟨ts, some e, get_api_logs env.api⟩
      | .ok ts' =>
        match pyIndex response "homeworks" with
        | .error e => ⟨ts', some e, get_api_logs env.api⟩  -- dead: key present
        | .ok homeworks =>
          if homeworks.truthy then
            match pyIndexNat homeworks 0 with
            | .error e => ⟨ts', some e, get_api_logs env.api⟩  -- dead: nonempty list
            | .ok hw =>
              match parse_status hw with
              | .error e => ⟨ts', some e, get_api_logs env.api⟩
              | .ok message => ⟨ts', Option.none, get_api_logs env.api ++ send_message env message⟩
          else
            ⟨ts', Option.none,
             get_api_logs env.api ++ [.logDebug "В ответе API получен пустой список домашних работ"]⟩

/-- One full loop iteration: the `try` body, then the `except Exception`
block (stringify, dedup gate, record, notify), then the unconditional
`finally: time.sleep(RETRY_PERIOD)`. -/
def runCycle (cfg : Config) (env : CycleEnv) (st : BotState) : BotState × List LogEvent :=
  let out := cycleBody cfg env st.timestamp
  match out.err with
  | Option.none => (⟨out.ts, st.sent_errors⟩, out.evs ++ [.sleep RETRY_PERIOD])
  | some e =>
    let errorMessage := e.toStr
    if shouldNotify st.sent_errors errorMessage env.now then
      (⟨out.ts, updateKV st.sent_errors errorMessage env.now⟩,
       out.evs ++ send_message env ("Сбой в работе программы: " ++ errorMessage) ++
         [.sleep RETRY_PERIOD])
    else
      (⟨out.ts, st.sent_errors⟩, out.evs ++ [.sleep RETRY_PERIOD])

/-- The `while True` loop, run over a finite list of cycle environments
(the real loop never terminates; a run prefix is modelled). -/
def runLoop (cfg : Config) : List CycleEnv → BotState → BotState × List LogEvent
  | [], st => (st, [])
  | env :: rest, st =>
    let out := runCycle cfg env st
    let next := runLoop cfg rest out.1
    (next.1, out.2 ++ next.2)

/-- `main`: `check_tokens` first — on `TokenError` the loop is never
entered — otherwise the loop starts with `timestamp = int(time.time())`
and empty `sent_errors`. -/
def runMain (cfg : Config) (initTime : Int) (envs : List CycleEnv) :
    Except PyError (BotState × List LogEvent) :=
  match (check_tokens cfg).1 with
  | .error e => .error e
  | .ok _ => .ok (runLoop cfg envs ⟨initTime, []⟩)

/-! ## Derived observers (defined from the program, used to state claims) -/

/-- The payload of a cycle when fetching and validation both succeed. -/
def validResponse (cfg : Config) (env : CycleEnv) (ts : Int) : Option Value :=
  match get_api_answer cfg env.api ts with
  | .error _ => Option.none
  | .ok d =>
    match check_response d with
    | .error _ => Option.none
    | .ok _ => some d

/-- The integer `current_date` of a validated response, when present and
convertible. -/
def cycleDateInt (cfg : Config) (env : CycleEnv) (ts : Int) : Option Int :=
  match validResponse cfg env ts with
  | Option.none => Option.none
  | some d =>
    match d.lookup? "current_date" with
    | Option.none => Option.none
    | some v =>
      match pyInt v with
      | .ok n => some n
      | .error _ => Option.none

/-- The exception the cycle's `try` body raises, if any. -/
def cycleErr (cfg : Config) (env : CycleEnv) (ts : Int) : Option PyError :=
  (cycleBody cfg env ts).err

/-- Stringified form of the cycle's exception. -/
def cycleErrStr (cfg : Config) (env : CycleEnv) (ts : Int) : Option String :=
  (cycleErr cfg env ts).map PyError.toStr

/-- The fixed prefix of outbound error notifications (line 214). -/
def errPre : String := "Сбой в работе программы: "

/-- Clock values of the cycles in a run that emit an outbound error
notification whose deduplicated text is `msg`. -/
def errorSendTimes (cfg : Config) (msg : String) :
    List CycleEnv → BotState → List Int
  | [], _ => []
  | env :: rest, st =>
    (if cycleErrStr cfg env st.timestamp = some msg ∧
        LogEvent.sendAttempt (errPre ++ msg) ∈ (runCycle cfg env st).2
     then [env.now] else []) ++
    errorSendTimes cfg msg rest (runCycle cfg env st).1

/-! ## Basic lemmas -/

theorem lookupKV_updateKV_self {α : Type} (l : List (String × α)) (k : String) (v : α) :
    lookupKV (updateKV l k v) k = some v := by
  induction l with
  | nil => simp [lookupKV, updateKV]
  | cons p rest ih =>
    by_cases h : p.1 = k <;> simp [lookupKV, updateKV, h, ih]

theorem lookupKV_updateKV_of_ne {α : Type} (l : List (String × α)) (k k' : String) (v : α)
    (hne : k ≠ k') : lookupKV (updateKV l k v) k' = lookupKV l k' := by
  induction l with
  | nil => simp [lookupKV, updateKV, hne]
  | cons p rest ih =>
    by_cases h : p.1 = k
    · simp [lookupKV, updateKV, h, ih]
      simp [hne]
    · simp [lookupKV, updateKV, h, ih]

/-- The log calls of a successful fetch are empty. -/
theorem get_api_logs_of_ok (cfg : Config) (api : ApiEnv) (ts : Int) (d : Value)
    (h : get_api_answer cfg api ts = .ok d) : get_api_logs api = [] := by
  rcases hre : api.requestExc with _ | e
  · rcases hj : api.jsonResult with e | data
    · by_cases hs : api.statusCode = 200
      · simp [get_api_answer, hre, hj, hs] at h
      · simp [get_api_answer, hre, hs] at h
    · by_cases hs : api.statusCode = 200
      · simp [get_api_logs, hre, hj, hs]
      · simp [get_api_answer, hre, hs] at h
  · simp [get_api_answer, hre] at h

/-- `get_api_answer` never performs a Telegram send. -/
theorem sendAttempt_not_mem_get_api_logs (api : ApiEnv) (m : String) :
    LogEvent.sendAttempt m ∉ get_api_logs api := by
  rcases hre : api.requestExc with _ | e
  · rcases hj : api.jsonResult with e | data <;>
      by_cases hs : api.statusCode = 200 <;>
      simp [get_api_logs, hre, hj, hs]
  · simp [get_api_logs, hre]

/-- The cursor after a cycle's `try` body: `current_date + 1` of a
validated, convertible response, otherwise unchanged. -/
theorem cycleBody_ts (cfg : Config) (env : CycleEnv) (ts : Int) :
    (cycleBody cfg env ts).ts =
      match cycleDateInt cfg env ts with
      | some n => n + 1
      | Option.none => ts := by
  rcases hga : get_api_answer cfg env.api ts with e | d
  · simp [cycleBody, cycleDateInt, validResponse, hga]
  · rcases hcr : check_response d with e | u
    · simp [cycleBody, cycleDateInt, validResponse, hga, hcr]
    · rcases hl : d.lookup? "current_date" with _ | v
      · simp only [cycleBody, cycleDateInt, validResponse, cursorStep, hga, hcr, hl]
        repeat' split
        all_goals rfl
      · rcases hpi : pyInt v with e | n
        · simp [cycleBody, cycleDateInt, validResponse, cursorStep, hga, hcr, hl, hpi, Except.map]
        · simp only [cycleBody, cycleDateInt, validResponse, cursorStep, hga, hcr, hl, hpi,
            Except.map]
          repeat' split
          all_goals simp_all [Except.map]

/-- The cursor after a full cycle equals the cursor after its `try` body. -/
theorem runCycle_timestamp (cfg : Config) (env : CycleEnv) (st : BotState) :
    (runCycle cfg env st).1.timestamp = (cycleBody cfg env st.timestamp).ts := by
  rcases hcb : cycleBody cfg env st.timestamp with ⟨ts', err, evs⟩
  rcases err with _ | e
  · simp [runCycle, hcb]
  · simp only [runCycle, hcb]
    split <;> simp

/-- The `sent_errors` state after a cycle: updated at the stringified error
exactly when the `try` body raised and the dedup gate passed. -/
theorem runCycle_sent_errors (cfg : Config) (env : CycleEnv) (st : BotState) :
    (runCycle cfg env st).1.sent_errors =
      match cycleErr cfg env st.timestamp with
      | Option.none => st.sent_errors
      | some e =>
        if shouldNotify st.sent_errors e.toStr env.now then
          updateKV st.sent_errors e.toStr env.now
        else st.sent_errors := by
  rcases hcb : cycleBody cfg env st.timestamp with ⟨ts', err, evs⟩
  rcases err with _ | e
  · simp [runCycle, cycleErr, hcb]
  · simp only [runCycle, cycleErr, hcb]
    split <;> simp

/-- The trace of a cycle whose `try` body raised `e`: the body's logs, the
dedup-gated error notification, the sleep. -/
theorem runCycle_trace_of_err (cfg : Config) (env : CycleEnv) (st : BotState) (e : PyError)
    (h : cycleErr cfg env st.timestamp = some e) :
    (runCycle cfg env st).2 =
      (cycleBody cfg env st.timestamp).evs ++
      (if shouldNotify st.sent_errors e.toStr env.now then
         send_message env (errPre ++ e.toStr) else []) ++
      [.sleep RETRY_PERIOD] := by
  rcases hcb : cycleBody cfg env st.timestamp with ⟨ts', err, evs⟩
  rw [cycleErr, hcb] at h
  simp only at h
  subst h
  simp only [runCycle, hcb, errPre]
  split <;> simp

/-- The trace of a cycle whose `try` body succeeded: the body's events and
the sleep. -/
theorem runCycle_trace_of_ok (cfg : Config) (env : CycleEnv) (st : BotState)
    (h : cycleErr cfg env st.timestamp = Option.none) :
    (runCycle cfg env st).2 = (cycleBody cfg env st.timestamp).evs ++ [.sleep RETRY_PERIOD] := by
  rcases hcb : cycleBody cfg env st.timestamp with ⟨ts', err, evs⟩
  rw [cycleErr, hcb] at h
  simp only at h
  subst h
  simp [runCycle, hcb]

/-- Every cycle's trace ends with the fixed sleep (`finally` block). -/
theorem runCycle_trace_getLast (cfg : Config) (env : CycleEnv) (st : BotState) :
    (runCycle cfg env st).2.getLast? = some (.sleep RETRY_PERIOD) := by
  rcases hcb : cycleBody cfg env st.timestamp with ⟨ts', err, evs⟩
  rcases err with _ | e
  · simp [runCycle, hcb]
  · simp only [runCycle, hcb]
    split <;> simp

/-- When the `try` body raises, the events it emitted are exactly the API
client's log calls (and on success paths `err` is `none`). -/
theorem cycleBody_evs_or_ok (cfg : Config) (env : CycleEnv) (ts : Int) :
    (cycleBody cfg env ts).evs = get_api_logs env.api ∨
    (cycleBody cfg env ts).err = Option.none := by
  rcases hga : get_api_answer cfg env.api ts with e | d
  · left; simp [cycleBody, hga]
  · rcases hcr : check_response d with e | u
    · left; simp [cycleBody, hga, hcr]
    · rcases hcs : cursorStep d ts with e | ts'
      · left; simp [cycleBody, hga, hcr, hcs]
      · simp only [cycleBody, hga, hcr, hcs]
        repeat' split
        all_goals simp

/-- An error notification for the cycle's own error appears in the trace
exactly when the dedup gate passes. -/
theorem errorSend_mem_iff (cfg : Config) (env : CycleEnv) (st : BotState) (e : PyError)
    (h : cycleErr cfg env st.timestamp = some e) :
    (LogEvent.sendAttempt (errPre ++ e.toStr) ∈ (runCycle cfg env st).2 ↔
      shouldNotify st.sent_errors e.toStr env.now = true) := by
  rw [runCycle_trace_of_err cfg env st e h]
  rcases cycleBody_evs_or_ok cfg env st.timestamp with hevs | hok
  · rw [hevs]
    by_cases hsn : shouldNotify st.sent_errors e.toStr env.now = true
    · by_cases hd : env.deliverOk <;> simp [hsn, hd, send_message]
    · rw [if_neg hsn]
      constructor
      · intro hmem
        exfalso
        simp only [List.append_nil] at hmem
        rcases List.mem_append.mp hmem with hmem' | hmem'
        · exact sendAttempt_not_mem_get_api_logs env.api _ hmem'
        · simp at hmem'
      · intro hcontra
        exact absurd hcontra hsn
  · rw [cycleErr, hok] at h
    simp at h

/-- Helper for the dedup invariant: how a cycle transforms the last-sent
entry for a fixed message `msg`. -/
theorem runCycle_lookup_msg (cfg : Config) (env : CycleEnv) (st : BotState) (msg : String) :
    lookupKV (runCycle cfg env st).1.sent_errors msg = lookupKV st.sent_errors msg ∨
    (cycleErrStr cfg env st.timestamp = some msg ∧
     shouldNotify st.sent_errors msg env.now = true ∧
     lookupKV (runCycle cfg env st).1.sent_errors msg = some env.now) := by
  rw [runCycle_sent_errors]
  rcases hce : cycleErr cfg env st.timestamp with _ | e
  · left; rfl
  · simp only
    by_cases hsn : shouldNotify st.sent_errors e.toStr env.now = true
    · by_cases hmsg : e.toStr = msg
      · right
        have hsn' : shouldNotify st.sent_errors msg env.now = true := hmsg ▸ hsn
        refine ⟨by simp [cycleErrStr, hce, hmsg], hsn', ?_⟩
        simp [hmsg, hsn', lookupKV_updateKV_self]
      · left
        simp [hsn, lookupKV_updateKV_of_ne _ _ _ _ hmsg]
    · left
      simp [hsn]

/-- Dedup invariant: within a run, the send times for a fixed error message
are pairwise more than `DUPLICATE_DELAY` apart, and all of them postdate
any recorded last-sent time by more than `DUPLICATE_DELAY`. -/
theorem errorSendTimes_gap (cfg : Config) (msg : String) :
    ∀ (envs : List CycleEnv) (st : BotState),
      (∀ t ∈ errorSendTimes cfg msg envs st,
        ∀ last, lookupKV st.sent_errors msg = some last → last + DUPLICATE_DELAY < t) ∧
      List.Pairwise (fun a b => a + DUPLICATE_DELAY < b) (errorSendTimes cfg msg envs st) := by
  intro envs
  induction envs with
  | nil => intro st; simp [errorSendTimes]
  | cons env rest ih =>
    intro st
    obtain ⟨ih1, ih2⟩ := ih (runCycle cfg env st).1
    by_cases hc : cycleErrStr cfg env st.timestamp = some msg ∧
        LogEvent.sendAttempt (errPre ++ msg) ∈ (runCycle cfg env st).2
    · obtain ⟨hmsg, hmem⟩ := hc
      obtain ⟨e, he, hstr⟩ := Option.map_eq_some'.mp hmsg
      have hsn : shouldNotify st.sent_errors msg env.now = true := by
        have := (errorSend_mem_iff cfg env st e he).mp (by rw [hstr]; exact hmem)
        rwa [hstr] at this
      have hlook : lookupKV (runCycle cfg env st).1.sent_errors msg = some env.now := by
        rw [runCycle_sent_errors, he]
        simp [hstr, hsn, lookupKV_updateKV_self]
      have htail : ∀ t ∈ errorSendTimes cfg msg rest (runCycle cfg env st).1,
          env.now + DUPLICATE_DELAY < t := fun t ht => ih1 t ht env.now hlook
      have htimes : errorSendTimes cfg msg (env :: rest) st =
          env.now :: errorSendTimes cfg msg rest (runCycle cfg env st).1 := by
        simp [errorSendTimes, hmsg, hmem]
      rw [htimes]
      constructor
      · intro t ht last hlast
        rcases List.mem_cons.mp ht with hhd | htl
        · subst hhd
          rw [shouldNotify, hlast] at hsn
          simp only [decide_eq_true_eq] at hsn
          omega
        · have h1 := htail t htl
          rw [shouldNotify, hlast] at hsn
          simp only [decide_eq_true_eq] at hsn
          have : (0 : Int) ≤ DUPLICATE_DELAY := by decide
          omega
      · exact List.pairwise_cons.mpr ⟨htail, ih2⟩
    · have hpres : lookupKV (runCycle cfg env st).1.sent_errors msg =
          lookupKV st.sent_errors msg := by
        rcases runCycle_lookup_msg cfg env st msg with hp | ⟨hm, hs, _⟩
        · exact hp
        · exfalso
          obtain ⟨e, he, hstr⟩ := Option.map_eq_some'.mp hm
          exact hc ⟨hm, by
            rw [← hstr]
            exact (errorSend_mem_iff cfg env st e he).mpr (hstr ▸ hs)⟩
      have htimes : errorSendTimes cfg msg (env :: rest) st =
          errorSendTimes cfg msg rest (runCycle cfg env st).1 := by
        simp only [errorSendTimes]
        rw [if_neg hc]
        simp
      rw [htimes]
      exact ⟨fun t ht last hlast => ih1 t ht last (by rw [hpres]; exact hlast), ih2⟩

/-- `validResponse` unpacks to a successful fetch and a successful
structural check. -/
theorem validResponse_spec (cfg : Config) (env : CycleEnv) (ts : Int) (d : Value)
    (h : validResponse cfg env ts = some d) :
    get_api_answer cfg env.api ts = .ok d ∧ check_response d = .ok () := by
  unfold validResponse at h
  rcases hga : get_api_answer cfg env.api ts with e | d'
  · rw [hga] at h; simp at h
  · rw [hga] at h
    simp only at h
    rcases hcr : check_response d' with e | u
    · rw [hcr] at h; simp at h
    · rw [hcr] at h
      simp only at h
      obtain rfl : d' = d := by injection h
      exact ⟨rfl, by rw [hcr]⟩

/-! ## Concrete fixtures for witnesses and counterexamples -/

/-- A configuration with all three variables set. -/
def cfgW : Config := ⟨some "token", some "tg-token", some "chat"⟩

/-- A cycle whose fetch succeeds with HTTP 200 and decoded body `v`. -/
def apiOk (v : Value) : ApiEnv := ⟨Option.none, 200, .ok v, ""⟩

/-- A cycle environment with body `v`, clock `now`, delivery succeeding. -/
def envOk (v : Value) (now : Int) : CycleEnv := ⟨apiOk v, now, true, ""⟩

/-- The record of the C5 scenario. -/
def hwX : Value := .dict [("status", .str "approved"), ("homework_name", .str "X")]

/-- The payload of the C5 scenario. -/
def payloadC5 : Value := .dict [("homeworks", .list [hwX]), ("current_date", .int 100)]

/-- The message of the C5 scenario. -/
def msgC5 : String :=
  "Изменился статус проверки работы \x22X\x22. Работа проверена: ревьюеру всё понравилось. Ура!"

/-- A validated empty-homeworks payload with a small `current_date`. -/
def payloadLowDate : Value := .dict [("homeworks", .list []), ("current_date", .int 5)]

/-- A validated empty-homeworks payload with a large `current_date`. -/
def payloadHighDate : Value := .dict [("homeworks", .list []), ("current_date", .int 2000)]

/-- A validated empty-homeworks payload without `current_date`. -/
def payloadNoDate : Value := .dict [("homeworks", .list [])]

/-- A payload that fails validation: the `homeworks` key is missing. -/
def payloadNoHw : Value := .dict [("foo", .int 1)]

/-- The C9 payload: embedded application-level rejection under HTTP 200. -/
def payloadC9 : Value := .dict [("code", .str "not_authenticated")]

/-- The C10 payload: an embedded `code` equal to the integer 200. -/
def payloadC10 : Value := .dict [("code", .int 200), ("homeworks", .list []), ("current_date", .int 1)]

/-- A well-formed payload used as "the next cycle" after a failure. -/
def payloadNext : Value := .dict [("homeworks", .list []), ("current_date", .int 42)]

/-- A falsy payload (`check_response` rejects it as empty; an empty dict
also passes `get_api_answer`'s embedded-code checks unharmed). -/
def payloadFalsy : Value := .dict []

/-- The error text `str(e)` of the falsy-payload rejection. -/
def msgFalsy : String := "Ответ API пуст или  None."

/-- `true` on error-severity log entries. -/
def isErrorLog : LogEvent → Bool
  | .logError _ => true
  | _ => false

/-! ## Claims -/

/-- C5: for the payload
`{"homeworks":[{"status":"approved","homework_name":"X"}], "current_date": 100}`
a successful cycle renders exactly
`Изменился статус проверки работы "X". Работа проверена: ревьюеру всё понравилось. Ура!`
(the fixed template with name and verdict as the only variable slots),
sends it, and the cursor advances to 101. -/
theorem c5_status_change_message :
    parse_status hwX = .ok msgC5 ∧
    (runCycle cfgW (envOk payloadC5 0) ⟨50, []⟩).1.timestamp = 101 ∧
    (runCycle cfgW (envOk payloadC5 0) ⟨50, []⟩).2 =
      [.sendAttempt msgC5, .logDebug ("Сообщение отправлено в Telegram: " ++ msgC5),
       .sleep RETRY_PERIOD] ∧
    (∀ n v : String, STATUS_CHANGE_MSG n v =
      "Изменился статус проверки работы \x22" ++ n ++ "\x22. " ++ v) :=
  ⟨rfl, rfl, rfl, fun _ _ => rfl⟩

/-- C9 counterexample: an HTTP-200 response whose decoded body **does**
carry an embedded `code` field — with the integer value 200 — is accepted
by `get_api_answer` rather than failing, refuting the claim's universal
"every response … whose JSON body carries an embedded code or error
field … fails with ApplicationFailure". -/
theorem c9_counterexample :
    (lookupKV [("code", Value.int 200), ("homeworks", Value.list []),
               ("current_date", Value.int 1)] "code").isSome = true ∧
    get_api_answer cfgW (apiOk payloadC10) 0 = .ok payloadC10 :=
  ⟨rfl, rfl⟩

/-- C9 (amended): an HTTP-200 response whose decoded dict body carries a
`code` field different from the integer 200, or an `error` field (with
`code` absent or equal to 200), fails with `APIRequestError` (the spec's
`ApplicationFailure`) — a body whose `code` equals 200 and has no `error`
field is the one embedded-`code` case that is accepted — and any fetch
failure is recoverable: the cursor is unchanged, the cycle still ends with
the sleep, and the loop goes on to run the remaining cycles. -/
theorem c9_embedded_failure_recoverable (cfg : Config) (api : ApiEnv) (ts : Int)
    (fields : List (String × Value))
    (hre : api.requestExc = Option.none) (hsc : api.statusCode = 200)
    (hj : api.jsonResult = .ok (.dict fields)) :
    (∀ c, lookupKV fields "code" = some c → pyEqInt c 200 = false →
       get_api_answer cfg api ts = .error (.apiRequestError
         ("API error: " ++ pyStr ((lookupKV fields "error").getD (.str "Unknown error")) ++
          "код: " ++ pyStr c))) ∧
    (∀ ev, lookupKV fields "code" = Option.none → lookupKV fields "error" = some ev →
       get_api_answer cfg api ts = .error (.apiRequestError ("API error: " ++ pyStr ev))) ∧
    (∀ c ev, lookupKV fields "code" = some c → pyEqInt c 200 = true →
       lookupKV fields "error" = some ev →
       get_api_answer cfg api ts = .error (.apiRequestError ("API error: " ++ pyStr ev))) ∧
    (∀ (env : CycleEnv) (st : BotState) (e : PyError),
       get_api_answer cfg env.api st.timestamp = .error e →
       (runCycle cfg env st).1.timestamp = st.timestamp ∧
       (runCycle cfg env st).2.getLast? = some (.sleep RETRY_PERIOD) ∧
       (∀ rest, runLoop cfg (env :: rest) st =
         ((runLoop cfg rest (runCycle cfg env st).1).1,
          (runCycle cfg env st).2 ++ (runLoop cfg rest (runCycle cfg env st).1).2))) := by
  refine ⟨?_, ?_, ?_, ?_⟩
  · intro c hc hne
    simp [get_api_answer, hre, hsc, hj, pyContains, pyIndex, pyGetD, hc, hne]
  · intro ev hc herr
    simp [get_api_answer, hre, hsc, hj, pyContains, pyIndex, hc, herr]
  · intro c ev hc heq herr
    simp [get_api_answer, hre, hsc, hj, pyContains, pyIndex, hc, heq, herr]
  · intro env st e hga
    refine ⟨?_, runCycle_trace_getLast cfg env st, fun rest => ?_⟩
    · rw [runCycle_timestamp]
      simp [cycleBody, hga]
    · simp [runLoop]

/-- C9 witness: the scenario body `{"code":"not_authenticated"}` fails
with `ApplicationFailure`, and that failure leaves the cursor at 1000. -/
theorem c9_embedded_failure_recoverable_witness :
    get_api_answer cfgW (apiOk payloadC9) 1000 =
      .error (.apiRequestError "API error: Unknown errorкод: not_authenticated") ∧
    (runCycle cfgW ⟨apiOk payloadC9, 10, true, ""⟩ ⟨1000, []⟩).1.timestamp = 1000 :=
  ⟨(c9_embedded_failure_recoverable cfgW (apiOk payloadC9) 1000
      [("code", .str "not_authenticated")] (by rfl) (by rfl) (by rfl)).1
      (.str "not_authenticated") (by rfl) (by rfl),
   ((c9_embedded_failure_recoverable cfgW (apiOk payloadC9) 1000
      [("code", .str "not_authenticated")] (by rfl) (by rfl) (by rfl)).2.2.2
      ⟨apiOk payloadC9, 10, true, ""⟩ ⟨1000, []⟩
      (.apiRequestError "API error: Unknown errorкод: not_authenticated") (by rfl)).1⟩

/-- C10: for **every** HTTP-200 response whose decoded dict body contains
a `code` field equal (as a Python value) to the integer 200 and no `error`
field, `get_api_answer` returns the payload as valid — the embedded-code
check rejects only `code` values different from 200. -/
theorem c10_code_200_accepted (cfg : Config) (api : ApiEnv) (ts : Int)
    (fields : List (String × Value)) (c : Value)
    (hre : api.requestExc = Option.none) (hsc : api.statusCode = 200)
    (hj : api.jsonResult = .ok (.dict fields))
    (hc : lookupKV fields "code" = some c) (heq : pyEqInt c 200 = true)
    (herr : lookupKV fields "error" = Option.none) :
    get_api_answer cfg api ts = .ok (.dict fields) := by
  simp [get_api_answer, hre, hsc, hj, pyContains, pyIndex, hc, heq, herr]

/-- C10 witness: the concrete body with integer `code = 200` is
accepted. -/
theorem c10_code_200_accepted_witness :
    get_api_answer cfgW (apiOk payloadC10) 0 = .ok payloadC10 :=
  c10_code_200_accepted cfgW (apiOk payloadC10) 0
    [("code", .int 200), ("homeworks", .list []), ("current_date", .int 1)] (.int 200)
    (by rfl) (by rfl) (by rfl) (by rfl) (by rfl) (by rfl)

/-- C2 counterexample: a validated cycle whose response carries
`current_date = 5` drags a cursor of 100 down to 6 — the Poll Cursor can
decrease when the endpoint returns a smaller `current_date`. -/
theorem c2_counterexample :
    (runCycle cfgW (envOk payloadLowDate 0) ⟨100, []⟩).1.timestamp <
      (BotState.mk 100 []).timestamp := by decide

/-- C3 counterexample: a cycle whose payload lacks the `homeworks` key
raises inside the `try` body and is caught, yet the cycle's trace contains
no error-severity log entry — the `except` block of `main` never logs. -/
theorem c3_counterexample :
    cycleErr cfgW (envOk payloadNoHw 0) 50 =
      some (.apiResponseError "Ответ API не содержит ключ \x22homeworks\x22.") ∧
    (runCycle cfgW (envOk payloadNoHw 0) ⟨50, []⟩).2 =
      [.sendAttempt ("Сбой в работе программы: Ответ API не содержит ключ \x22homeworks\x22."),
       .logDebug ("Сообщение отправлено в Telegram: Сбой в работе программы: Ответ API не содержит ключ \x22homeworks\x22."),
       .sleep RETRY_PERIOD] ∧
    (runCycle cfgW (envOk payloadNoHw 0) ⟨50, []⟩).2.countP isErrorLog = 0 :=
  ⟨rfl, rfl, rfl⟩

/-- C6 counterexample: a record with a valid status but no name field
fails with an `UnboundLocalError` over the local `name`, not with the
claimed `MissingFieldError` (`HomeworkStatusError`); a record carrying the
legacy `lesson_name` field fares no better — that field is never read. -/
theorem c6_counterexample :
    parse_status (.dict [("status", .str "approved")]) =
      .error (.unboundLocalError nameUnboundMsg) ∧
    parse_status (.dict [("status", .str "approved"), ("lesson_name", .str "X")]) =
      .error (.unboundLocalError nameUnboundMsg) :=
  ⟨rfl, rfl⟩

/-- C8 counterexample: credentials set to empty strings pass
`check_tokens` (the code only tests `is None`) and the poll loop is
entered — contradicting "absent or empty is fatal". -/
theorem c8_counterexample :
    (check_tokens ⟨some "", some "", some ""⟩).1 = .ok () ∧
    (runMain ⟨some "", some "", some ""⟩ 0 [envOk payloadNoDate 0]).toOption.isSome = true :=
  ⟨rfl, rfl⟩

/-- The `current_date` values of a validated payload can all be converted
by `int()` (trivially true when the key is absent). -/
def dateConvertible (fields : List (String × Value)) : Prop :=
  ∀ v, lookupKV fields "current_date" = some v → ∃ n, pyInt v = .ok n

/-- C1: the cursor changes only in a cycle whose response passed
validation and carried a convertible `current_date`; when it does, it is
set to `current_date + 1` (the documented policy: advancement is decided
by validation, not by delivery); without such a date the cursor is left
unchanged; and a validated cycle with an empty `homeworks` list sends no
notification and only logs at debug level. -/
theorem c1_cursor_policy (cfg : Config) (env : CycleEnv) (st : BotState) :
    ((runCycle cfg env st).1.timestamp ≠ st.timestamp →
       ∃ n, cycleDateInt cfg env st.timestamp = some n) ∧
    (∀ n, cycleDateInt cfg env st.timestamp = some n →
       (runCycle cfg env st).1.timestamp = n + 1) ∧
    (cycleDateInt cfg env st.timestamp = Option.none →
       (runCycle cfg env st).1.timestamp = st.timestamp) ∧
    (∀ fields, validResponse cfg env st.timestamp = some (.dict fields) →
       lookupKV fields "homeworks" = some (.list []) →
       dateConvertible fields →
       (runCycle cfg env st).2 =
         [.logDebug "В ответе API получен пустой список домашних работ", .sleep RETRY_PERIOD]) := by
  have hts := runCycle_timestamp cfg env st
  rw [cycleBody_ts] at hts
  refine ⟨?_, ?_, ?_, ?_⟩
  · intro hne
    rcases hd : cycleDateInt cfg env st.timestamp with _ | n
    · rw [hd] at hts; simp at hts; exact absurd hts hne
    · exact ⟨n, rfl⟩
  · intro n hd
    rw [hd] at hts; simpa using hts
  · intro hd
    rw [hd] at hts; simpa using hts
  · intro fields hvr hhw hdate
    obtain ⟨hga, hcr⟩ := validResponse_spec cfg env st.timestamp _ hvr
    have hlogs : get_api_logs env.api = [] := get_api_logs_of_ok cfg env.api st.timestamp _ hga
    obtain ⟨ts', hcs⟩ : ∃ ts', cursorStep (.dict fields) st.timestamp = .ok ts' := by
      unfold cursorStep
      rcases hl : Value.lookup? (.dict fields) "current_date" with _ | v
      · exact ⟨st.timestamp, rfl⟩
      · obtain ⟨n, hn⟩ := hdate v (by simpa [Value.lookup?] using hl)
        exact ⟨n + 1, by simp [hn, Except.map]⟩
    have hbody : cycleBody cfg env st.timestamp =
        ⟨ts', Option.none,
         get_api_logs env.api ++ [.logDebug "В ответе API получен пустой список домашних работ"]⟩ := by
      simp [cycleBody, hga, hcr, hcs, pyIndex, hhw, Value.truthy]
    rw [runCycle_trace_of_ok cfg env st (by rw [cycleErr, hbody])]
    rw [hbody, hlogs]
    simp

/-- C1 witness: the empty-homeworks scenario payload `{"homeworks": []}` —
debug log only, no notification, and (via the third conjunct) an unchanged
cursor. -/
theorem c1_cursor_policy_witness :
    (runCycle cfgW (envOk payloadNoDate 0) ⟨7, []⟩).2 =
      [.logDebug "В ответе API получен пустой список домашних работ", .sleep RETRY_PERIOD] ∧
    (runCycle cfgW (envOk payloadNoDate 0) ⟨7, []⟩).1.timestamp = 7 :=
  ⟨(c1_cursor_policy cfgW (envOk payloadNoDate 0) ⟨7, []⟩).2.2.2 [("homeworks", .list [])]
      (by rfl) (by rfl) (by intro v hv; simp [lookupKV] at hv),
   (c1_cursor_policy cfgW (envOk payloadNoDate 0) ⟨7, []⟩).2.2.1 (by rfl)⟩

/-- C2 (amended): the cursor is replaced by `current_date + 1` whenever a
validated response carries a convertible `current_date`; consequently it
never decreases **provided** every such `current_date` is at least
`cursor − 1` — with an arbitrary smaller `current_date` the cursor can
decrease (see the counterexample). -/
theorem c2_cursor_monotone (cfg : Config) (env : CycleEnv) (st : BotState)
    (h : ∀ n, cycleDateInt cfg env st.timestamp = some n → st.timestamp ≤ n + 1) :
    st.timestamp ≤ (runCycle cfg env st).1.timestamp := by
  rw [runCycle_timestamp, cycleBody_ts]
  rcases hd : cycleDateInt cfg env st.timestamp with _ | n
  · simp
  · simpa using h n hd

/-- C2 witness: a cycle returning `current_date = 2000` over a cursor of
1000 keeps the cursor monotone. -/
theorem c2_cursor_monotone_witness :
    (1000 : Int) ≤ (runCycle cfgW (envOk payloadHighDate 0) ⟨1000, []⟩).1.timestamp :=
  c2_cursor_monotone cfgW (envOk payloadHighDate 0) ⟨1000, []⟩ (by
    intro n hn
    have h2000 : cycleDateInt cfgW (envOk payloadHighDate 0)
        (BotState.mk 1000 []).timestamp = some 2000 := rfl
    rw [h2000] at hn
    injection hn with h
    rw [← h]
    decide)

/-- C3 (amended): every exception raised inside a cycle's `try` body is
caught at the loop boundary: the cycle always ends with the unconditional
sleep (`finally`), the stringified error is passed through the dedup gate,
an error notification is attempted exactly when the gate passes, and in
that case the gate's per-message state is updated — but, contrary to the
original claim, the `except` block performs no logging, so a caught error
is **not** always logged at error severity (see the counterexample). -/
theorem c3_loop_boundary (cfg : Config) (env : CycleEnv) (st : BotState) :
    (runCycle cfg env st).2.getLast? = some (.sleep RETRY_PERIOD) ∧
    (∀ e, cycleErr cfg env st.timestamp = some e →
      ((LogEvent.sendAttempt (errPre ++ e.toStr) ∈ (runCycle cfg env st).2) ↔
        shouldNotify st.sent_errors e.toStr env.now = true)) ∧
    (∀ e, cycleErr cfg env st.timestamp = some e →
      shouldNotify st.sent_errors e.toStr env.now = true →
      (runCycle cfg env st).1.sent_errors = updateKV st.sent_errors e.toStr env.now) := by
  refine ⟨runCycle_trace_getLast cfg env st,
    fun e he => errorSend_mem_iff cfg env st e he, ?_⟩
  intro e he hsn
  rw [runCycle_sent_errors, he]
  simp [hsn]

/-- C3 witness: a cycle rejecting an empty payload — the trace ends with
the sleep and the (first-time) error is notified. -/
theorem c3_loop_boundary_witness :
    (runCycle cfgW (envOk payloadFalsy 0) ⟨5, []⟩).2.getLast? = some (.sleep RETRY_PERIOD) ∧
    (LogEvent.sendAttempt (errPre ++ msgFalsy) ∈ (runCycle cfgW (envOk payloadFalsy 0) ⟨5, []⟩).2 ↔
      shouldNotify [] msgFalsy 0 = true) :=
  ⟨(c3_loop_boundary cfgW (envOk payloadFalsy 0) ⟨5, []⟩).1,
   (c3_loop_boundary cfgW (envOk payloadFalsy 0) ⟨5, []⟩).2.1 (.apiResponseError msgFalsy) (by rfl)⟩

/-- C4: error notifications are deduplicated per distinct message text
with its last-sent timestamp: in any run the send times for a fixed
message are pairwise more than `DUPLICATE_DELAY` apart (so the audience
receives at most one notification per message per dedup window), and in
the scenario of two consecutive cycles raising identical error text within
the window, exactly one notification is sent. -/
theorem c4_error_dedup (cfg : Config) :
    (∀ msg envs st, List.Pairwise (fun a b => a + DUPLICATE_DELAY < b)
        (errorSendTimes cfg msg envs st)) ∧
    (∀ msg env1 env2 st,
        cycleErrStr cfg env1 st.timestamp = some msg →
        cycleErrStr cfg env2 (runCycle cfg env1 st).1.timestamp = some msg →
        lookupKV st.sent_errors msg = Option.none →
        env2.now - env1.now ≤ DUPLICATE_DELAY →
        errorSendTimes cfg msg [env1, env2] st = [env1.now]) := by
  constructor
  · intro msg envs st
    exact (errorSendTimes_gap cfg msg envs st).2
  · intro msg env1 env2 st h1 h2 hlk hwin
    obtain ⟨e1, he1, hstr1⟩ := Option.map_eq_some'.mp h1
    obtain ⟨e2, he2, hstr2⟩ := Option.map_eq_some'.mp h2
    have hsn1 : shouldNotify st.sent_errors msg env1.now = true := by
      unfold shouldNotify
      rw [hlk]
    have hmem1 : LogEvent.sendAttempt (errPre ++ msg) ∈ (runCycle cfg env1 st).2 := by
      rw [← hstr1]
      exact (errorSend_mem_iff cfg env1 st e1 he1).mpr (hstr1 ▸ hsn1)
    have hlook1 : lookupKV (runCycle cfg env1 st).1.sent_errors msg = some env1.now := by
      rw [runCycle_sent_errors, he1]
      have hsn1' : shouldNotify st.sent_errors e1.toStr env1.now = true := by
        rw [hstr1]; exact hsn1
      simp only [hstr1]
      rw [if_pos hsn1]
      exact lookupKV_updateKV_self _ _ _
    have hsn2 : shouldNotify (runCycle cfg env1 st).1.sent_errors msg env2.now = false := by
      unfold shouldNotify
      rw [hlook1]
      simp only [decide_eq_false_iff_not]
      omega
    have hnmem2 :
        LogEvent.sendAttempt (errPre ++ msg) ∉ (runCycle cfg env2 (runCycle cfg env1 st).1).2 := by
      intro hmem
      have hx := (errorSend_mem_iff cfg env2 (runCycle cfg env1 st).1 e2 he2).mp
        (by rw [hstr2]; exact hmem)
      rw [hstr2, hsn2] at hx
      exact Bool.false_ne_true hx
    simp only [errorSendTimes]
    rw [if_pos ⟨h1, hmem1⟩, if_neg (fun hc => hnmem2 hc.2)]
    simp

/-- C4 witness: two cycles with the identical error text, clocks 0 and
3600 (within the window) — exactly one outbound error notification. -/
theorem c4_error_dedup_witness :
    errorSendTimes cfgW msgFalsy [envOk payloadFalsy 0, envOk payloadFalsy 3600] ⟨5, []⟩ = [0] :=
  (c4_error_dedup cfgW).2 msgFalsy (envOk payloadFalsy 0) (envOk payloadFalsy 3600) ⟨5, []⟩
    (by rfl) (by rfl) (by rfl) (by decide)

/-- C6 (amended): for every dict record handed to the extractor — a
missing `status` key fails with `HomeworkStatusError` (the spec's
`MissingFieldError`); a status that is not a verdict key fails with
`KeyError` (the spec's `UnknownStatusError`); only `homework_name` is
accepted as the name field (`lesson_name` is never read), and a record
lacking it fails with an `UnboundLocalError` over the local `name`, not
with `MissingFieldError`; with both fields good the template is
rendered. -/
theorem c6_extractor_errors (fields : List (String × Value)) :
    (lookupKV fields "status" = Option.none →
      parse_status (.dict fields) =
        .error (.homeworkStatusError "Ключ \x22status\x22 отсутствует в данных homework.")) ∧
    (∀ s, lookupKV fields "status" = some (.str s) → verdictOf? s = Option.none →
      parse_status (.dict fields) = .error (.keyError ("Unknown or missing status: " ++ s))) ∧
    (∀ s v, lookupKV fields "status" = some (.str s) → verdictOf? s = some v →
      lookupKV fields "homework_name" = Option.none →
      parse_status (.dict fields) = .error (.unboundLocalError nameUnboundMsg)) ∧
    (∀ s v n, lookupKV fields "status" = some (.str s) → verdictOf? s = some v →
      lookupKV fields "homework_name" = some n →
      parse_status (.dict fields) = .ok (STATUS_CHANGE_MSG (pyStr n) v)) := by
  refine ⟨?_, ?_, ?_, ?_⟩
  · intro h
    simp [parse_status, pyContains, h]
  · intro s h hv
    simp [parse_status, pyContains, pyIndex, verdictMember, pyGetD, h, hv, pyStr]
  · intro s v h hv hn
    simp [parse_status, pyContains, pyIndex, verdictMember, pyGetD, h, hv, hn]
  · intro s v n h hv hn
    simp [parse_status, pyContains, pyIndex, verdictMember, pyGetD, h, hv, hn]

/-- C6 witness: the template is rendered for an approved record with a
name, and a missing status raises `HomeworkStatusError`. -/
theorem c6_extractor_errors_witness :
    parse_status (.dict [("status", .str "approved"), ("homework_name", .str "X")]) =
      .ok (STATUS_CHANGE_MSG "X" "Работа проверена: ревьюеру всё понравилось. Ура!") ∧
    parse_status (.dict [("homework_name", .str "X")]) =
      .error (.homeworkStatusError "Ключ \x22status\x22 отсутствует в данных homework.") :=
  ⟨(c6_extractor_errors [("status", .str "approved"), ("homework_name", .str "X")]).2.2.2
      "approved" "Работа проверена: ревьюеру всё понравилось. Ура!" (.str "X")
      (by rfl) (by rfl) (by rfl),
   (c6_extractor_errors [("homework_name", .str "X")]).1 (by rfl)⟩

/-- C7: the validator rejects — with the structural errors the code
raises (`APIResponseError`/`TypeError`, the spec's `ShapeError`) — every
payload that is falsy, not a dict, lacks `homeworks`, or whose `homeworks`
is not a list; it accepts any dict with a `homeworks` list whatever the
records inside are (it never inspects record content); and on a validator
failure the cycle's `try` body stops with that error and the extractor is
never invoked (the body's outcome carries only the API client's logs). -/
theorem c7_validator_shape (v : Value) :
    (v.truthy = false →
      check_response v = .error (.apiResponseError "Ответ API пуст или  None.")) ∧
    (v.truthy = true → v.isDict = false →
      check_response v = .error (.typeError
        ("Ответ API не является словарем." ++ "Получен объект типа: " ++ pyTypeName v ++
         ".\nЗначение ответа: " ++ pyStr v))) ∧
    (∀ fields, v = .dict fields → v.truthy = true →
      lookupKV fields "homeworks" = Option.none →
      check_response v = .error (.apiResponseError "Ответ API не содержит ключ \x22homeworks\x22.")) ∧
    (∀ fields hw, v = .dict fields → v.truthy = true →
      lookupKV fields "homeworks" = some hw → hw.isList = false →
      check_response v = .error (.typeError
        ("Ответ API по ключу \x22homeworks\x22 не является списком." ++
         "Получен объект типа: " ++ pyTypeName hw ++ ".\nЗначение ответа: " ++ pyStr hw))) ∧
    (∀ fields xs, v = .dict fields → lookupKV fields "homeworks" = some (.list xs) →
      check_response v = .ok ()) ∧
    (∀ cfg env ts e, get_api_answer cfg env.api ts = .ok v → check_response v = .error e →
      cycleBody cfg env ts = ⟨ts, some e, get_api_logs env.api⟩) := by
  refine ⟨?_, ?_, ?_, ?_, ?_, ?_⟩
  · intro h
    simp [check_response, h]
  · intro ht hd
    simp [check_response, ht, hd]
  · intro fields hv ht hl
    subst hv
    simp [check_response, ht, Value.isDict, Value.lookup?, hl]
  · intro fields hw hv ht hl hlist
    subst hv
    simp [check_response, ht, Value.isDict, Value.lookup?, hl, hlist]
  · intro fields xs hv hl
    subst hv
    have ht : Value.truthy (.dict fields) = true := by
      rcases fields with _ | ⟨p, rest⟩
      · simp [lookupKV] at hl
      · simp [Value.truthy]
    simp [check_response, ht, Value.isDict, Value.lookup?, hl, Value.isList]
  · intro cfg env ts e hga hcr
    simp [cycleBody, hga, hcr]

/-- C7 witness: a payload without the `homeworks` key is rejected and the
cycle's body stops with that error. -/
theorem c7_validator_shape_witness :
    check_response payloadNoHw =
      .error (.apiResponseError "Ответ API не содержит ключ \x22homeworks\x22.") ∧
    cycleBody cfgW (envOk payloadNoHw 0) 50 =
      ⟨50, some (.apiResponseError "Ответ API не содержит ключ \x22homeworks\x22."),
       get_api_logs (apiOk payloadNoHw)⟩ :=
  ⟨(c7_validator_shape payloadNoHw).2.2.1 [("foo", .int 1)] (by rfl) (by rfl) (by rfl),
   (c7_validator_shape payloadNoHw).2.2.2.2.2 cfgW (envOk payloadNoHw 0) 50 _ (by rfl) (by rfl)⟩

/-- C8 (amended): at startup, before the loop, the three credentials are
checked once for being **set**: `check_tokens` succeeds iff none of the
three variables is `None`, and when it fails the `TokenError` propagates
out of `main` and the poll loop is never entered.  Contrary to the
original claim, empty strings pass the check (see the counterexample). -/
theorem c8_token_check (cfg : Config) :
    ((check_tokens cfg).1 = .ok () ↔
      (cfg.practicum ≠ Option.none ∧ cfg.telegram ≠ Option.none ∧ cfg.chatId ≠ Option.none)) ∧
    (∀ e, (check_tokens cfg).1 = .error e →
      ∀ t envs, runMain cfg t envs = .error e) := by
  constructor
  · unfold check_tokens
    rcases cfg with ⟨p, t, c⟩
    rcases p with _ | p <;> rcases t with _ | t <;> rcases c with _ | c <;> simp
  · intro e he t envs
    unfold runMain
    rw [he]

/-- C8 witness: with `PRACTICUM_TOKEN` unset, `main` dies with
`TokenError` before any cycle runs. -/
theorem c8_token_check_witness :
    runMain ⟨Option.none, some "x", some "y"⟩ 0 [envOk payloadNoDate 0] =
      .error (.tokenError "Отсутствуют необходимые переменные окружения: PRACTICUM_TOKEN") :=
  (c8_token_check ⟨Option.none, some "x", some "y"⟩).2 _ (by rfl) 0 [envOk payloadNoDate 0]

end Homework
